import Mathlib

/-!
Shallow embedding of the library circulation service
(`src/library_service.py`) of the library-management repository, together
with a model of its store layer and payment orchestrator.

Conventions of the embedding:
* Instants (`datetime` values) are integers counting seconds; a Python
  `timedelta.days` is `Int.fdiv (a - b) 86400`, which floors exactly as
  Python does.
* Monetary amounts are rationals.  Every amount the fee policy produces is
  an integer multiple of 0.50, and such values (and their sums, products
  with small integers, and `min`s) are computed exactly by Python floats,
  so the rational model is exact.
* Python `str.strip` / `str.lower` / `len` are modelled on the character
  list of the string (`String.data`) so that the kernel can evaluate them.
* Dynamically typed arguments that a caller may pass as a non-string or a
  non-integer are modelled by small sum types (`PyStr`, `PyVal`).
* Fallible store updates return an explicit success flag, as the Python
  helpers do.
-/

namespace LibraryService

/-! ### Python string primitives -/

/-- Python `str.strip()` on a character list: drop leading and trailing
whitespace. -/
def stripChars (l : List Char) : List Char :=
  ((l.dropWhile Char.isWhitespace).reverse.dropWhile Char.isWhitespace).reverse

/-- Python `s.strip()`. -/
def pyStrip (s : String) : String :=
  String.mk (stripChars s.data)

/-- Python `s.lower()`. -/
def pyLower (s : String) : String :=
  String.mk (s.data.map Char.toLower)

/-- Python `len(s)`: number of characters. -/
def pyLen (s : String) : Nat :=
  s.data.length

/-- Python `needle in hay` for strings (substring containment). -/
def pyContains (hay needle : List Char) : Bool :=
  match hay with
  | [] => needle.isEmpty
  | _ :: t => needle.isPrefixOf hay || pyContains t needle

/-- A value that may or may not be a Python `str`
(for `isinstance(x, str)` checks). -/
inductive PyStr where
  | str (s : String)
  | nonStr
deriving Repr, DecidableEq

/-- A value that may or may not be a Python `int`
(for `isinstance(x, int)` checks). -/
inductive PyVal where
  | int (n : Int)
  | nonInt
deriving Repr, DecidableEq

/-! ### Data model -/

structure Book where
  id : Nat
  title : String
  author : String
  isbn : String
  total_copies : Int
  available_copies : Int
deriving Repr, DecidableEq

structure BorrowRecord where
  patron_id : String
  book_id : Nat
  borrow_date : Int
  due_date : Int
  return_date : Option Int
deriving Repr, DecidableEq

/-- The two stores (catalog and borrow ledger) seen as one state. -/
structure LibraryState where
  books : List Book
  records : List BorrowRecord
deriving Repr, DecidableEq

/-! ### Store layer

The repository's `database.py` is not under `src/`; the helpers below are
modelled from the spec's description of the Catalog Store and Borrow
Ledger (section 6 of the spec). -/

/-- Modelled from the spec: Catalog Store `get_book_by_id(id)` — lookup a
book by its id. -/
def get_book_by_id (s : LibraryState) (book_id : Nat) : Option Book :=
  s.books.find? (fun b => b.id == book_id)

/-- Modelled from the spec: Catalog Store `get_book_by_isbn(isbn)` —
lookup a book by exact ISBN. -/
def get_book_by_isbn (s : LibraryState) (isbn : String) : Option Book :=
  s.books.find? (fun b => b.isbn == isbn)

/-- Modelled from the spec: Catalog Store `get_all_books()` (the spec's
title ordering is not modelled; no claim depends on result order). -/
def get_all_books (s : LibraryState) : List Book :=
  s.books

/-- Modelled from the spec: Borrow Ledger `get_patron_borrowed_books` —
the patron's currently open (unreturned) records. -/
def get_patron_borrowed_books (s : LibraryState) (patron_id : String) :
    List BorrowRecord :=
  s.records.filter (fun r => r.patron_id == patron_id && r.return_date.isNone)

/-- Modelled from the spec: Borrow Ledger `get_patron_borrow_count` —
count of the patron's open records. -/
def get_patron_borrow_count (s : LibraryState) (patron_id : String) : Nat :=
  (get_patron_borrowed_books s patron_id).length

/-- Modelled from the spec: Catalog Store `insert_book` with a
store-assigned fresh id. -/
def insert_book (s : LibraryState) (title author isbn : String)
    (total available : Int) : Bool × LibraryState :=
  let fresh := s.books.foldr (fun b m => max m b.id) 0 + 1
  (true, { s with books := s.books ++ [⟨fresh, title, author, isbn, total, available⟩] })

/-- Modelled from the spec: Borrow Ledger `insert_borrow_record`. -/
def insert_borrow_record (s : LibraryState) (patron_id : String)
    (book_id : Nat) (borrow_date due_date : Int) : Bool × LibraryState :=
  (true, { s with records := s.records ++ [⟨patron_id, book_id, borrow_date, due_date, none⟩] })

/-- Modelled from the spec: Catalog Store `update_book_availability` —
add `delta` to the availability of the book with the given id; fails when
the book does not exist. -/
def update_book_availability (s : LibraryState) (book_id : Nat) (delta : Int) :
    Bool × LibraryState :=
  if (s.books.find? (fun b => b.id == book_id)).isSome then
    (true, { s with books := s.books.map (fun b =>
      if b.id == book_id then { b with available_copies := b.available_copies + delta } else b) })
  else (false, s)

/-- Modelled from the spec: Borrow Ledger `update_borrow_record_return_date`
— set the return date on the patron's open record(s) for the book. -/
def update_borrow_record_return_date (s : LibraryState) (patron_id : String)
    (book_id : Nat) (return_date : Int) : Bool × LibraryState :=
  (true, { s with records := s.records.map (fun r =>
    if r.patron_id == patron_id && r.book_id == book_id && r.return_date.isNone
    then { r with return_date := some return_date } else r) })

/-! ### Fee policy (lines 166-184 and 277-283 of `library_service.py`) -/

/-- `max(0, (a - b).days)` is not taken here; this is the raw
`(a - b).days` of Python, which floors. -/
def daysDiff (a b : Int) : Int :=
  Int.fdiv (a - b) 86400

/-- The tier computation of `calculate_late_fee_for_book`
(lines 170-174): `days_overdue` has already been clamped to `max 0`. -/
def calcFee (d : Int) : ℚ :=
  min (if d ≤ 7 then (d : ℚ) * 0.50 else 7 * 0.50 + ((d : ℚ) - 7) * 1.00) 15.00

/-- The tier computation of `get_patron_status_report` (lines 277-283):
fee is 0 unless `days_overdue > 0`, else tiered and capped. -/
def reportFee (d : Int) : ℚ :=
  if 0 < d then
    min (if d ≤ 7 then (d : ℚ) * 0.50 else 7 * 0.50 + ((d : ℚ) - 7) * 1.00) 15.00
  else 0

/-- Python `round(q, 2)` (on the exact multiples of 0.01 produced by the
fee policy the tie-breaking mode is irrelevant). -/
def round2 (q : ℚ) : ℚ :=
  ((round (q * 100) : ℤ) : ℚ) / 100

/-! ### Patron id validation (shared by the service functions) -/

/-- `not patron_id or not patron_id.isdigit() or len(patron_id) != 6`,
negated: non-empty, all digits, exactly 6 characters. -/
def validPatronId (p : String) : Bool :=
  !p.data.isEmpty && p.data.all Char.isDigit && p.data.length == 6

/-! ### Circulation engine (`library_service.py`) -/

/-- `add_book_to_catalog` (lines 14-57). `total_copies` is dynamically
typed in Python, hence `PyVal`. -/
def add_book_to_catalog (s : LibraryState) (title author isbn : String)
    (total_copies : PyVal) : (Bool × String) × LibraryState :=
  if pyStrip title == "" then ((false, "Title is required."), s)
  else if 200 < pyLen (pyStrip title) then
    ((false, "Title must be less than 200 characters."), s)
  else if pyStrip author == "" then ((false, "Author is required."), s)
  else if 100 < pyLen (pyStrip author) then
    ((false, "Author must be less than 100 characters."), s)
  else if pyLen isbn != 13 then ((false, "ISBN must be exactly 13 digits."), s)
  else
    match total_copies with
    | .nonInt => ((false, "Total copies must be a positive integer."), s)
    | .int n =>
      if n ≤ 0 then ((false, "Total copies must be a positive integer."), s)
      else if (get_book_by_isbn s isbn).isSome then
        ((false, "A book with this ISBN already exists."), s)
      else
        match insert_book s (pyStrip title) (pyStrip author) isbn n n with
        | (true, s1) =>
          ((true, "Book \"" ++ pyStrip title ++ "\" has been successfully added to the catalog."), s1)
        | (false, s1) =>
          ((false, "Database error occurred while adding the book."), s1)

/-- `borrow_book_by_patron` (lines 59-102).  The `%Y-%m-%d` rendering of
the due date inside the success message is not modelled (no claim
concerns the success message text). -/
def borrow_book_by_patron (s : LibraryState) (nowi : Int) (patron_id : String)
    (book_id : Nat) : (Bool × String) × LibraryState :=
  if !(validPatronId patron_id) then
    ((false, "Invalid patron ID. Must be exactly 6 digits."), s)
  else
    match get_book_by_id s book_id with
    | none => ((false, "Book not found."), s)
    | some book =>
      if book.available_copies ≤ 0 then
        ((false, "This book is currently not available."), s)
      else if 5 ≤ get_patron_borrow_count s patron_id then
        ((false, "You have reached the maximum borrowing limit of 5 books."), s)
      else
        match insert_borrow_record s patron_id book_id nowi (nowi + 14 * 86400) with
        | (false, s1) => ((false, "Database error occurred while creating borrow record."), s1)
        | (true, s1) =>
          match update_book_availability s1 book_id (-1) with
          | (false, s2) => ((false, "Database error occurred while updating book availability."), s2)
          | (true, s2) => ((true, "Successfully borrowed \"" ++ book.title ++ "\"."), s2)

/-- `return_book_by_patron` (lines 104-132). -/
def return_book_by_patron (s : LibraryState) (nowi : Int) (patron_id : String)
    (book_id : Nat) : (Bool × String) × LibraryState :=
  if !(validPatronId patron_id) then
    ((false, "Invalid patron ID. Must be exactly 6 digits."), s)
  else
    match get_book_by_id s book_id with
    | none => ((false, "Book not found."), s)
    | some book =>
      match (get_patron_borrowed_books s patron_id).find? (fun r => r.book_id == book_id) with
      | none => ((false, "This book is not borrowed by the patron."), s)
      | some _ =>
        match update_borrow_record_return_date s patron_id book_id nowi with
        | (false, s1) => ((false, "Database error occurred while updating borrow record."), s1)
        | (true, s1) =>
          match update_book_availability s1 book_id 1 with
          | (false, s2) => ((false, "Database error occurred while updating book availability."), s2)
          | (true, s2) => ((true, "Successfully returned \"" ++ book.title ++ "\"."), s2)

/-- The result dictionary of `calculate_late_fee_for_book`. -/
structure FeeQuote where
  fee_amount : ℚ
  days_overdue : Int
  status : String
deriving Repr, DecidableEq

/-- Modelled from the spec: the Borrow Ledger's derived `is_overdue` flag
on an open record (due date strictly in the past). -/
def is_overdue (nowi : Int) (r : BorrowRecord) : Bool :=
  r.due_date < nowi

/-- `calculate_late_fee_for_book` (lines 134-184). -/
def calculate_late_fee_for_book (s : LibraryState) (nowi : Int)
    (patron_id : String) (book_id : Nat) : FeeQuote :=
  if !(validPatronId patron_id) then ⟨0, 0, "invalid patron ID"⟩
  else
    match get_book_by_id s book_id with
    | none => ⟨0, 0, "invalid book ID"⟩
    | some _ =>
      match (get_patron_borrowed_books s patron_id).find? (fun r => r.book_id == book_id) with
      | none => ⟨0, 0, "no borrow record"⟩
      | some r =>
        if is_overdue nowi r then
          let d := max 0 (daysDiff nowi r.due_date)
          ⟨calcFee d, d, "overdue"⟩
        else ⟨0, 0, "on time"⟩

/-- `search_books_in_catalog` (lines 186-223). -/
def search_books_in_catalog (s : LibraryState) (search_term search_type : PyStr) :
    List Book :=
  match search_term, search_type with
  | .nonStr, _ => []
  | _, .nonStr => []
  | .str term, .str ty =>
    if term == "" then []
    else if ty == "" then []
    else
      let term1 := pyStrip term
      let ty1 := pyLower (pyStrip ty)
      if !(ty1 == "title" || ty1 == "author" || ty1 == "isbn") then []
      else if ty1 == "isbn" then
        match get_book_by_isbn s term1 with
        | some b => [b]
        | none => []
      else
        (get_all_books s).filter (fun b =>
          pyContains (pyLower (if ty1 == "title" then b.title else b.author)).data
            (pyLower term1).data)

/-! ### Patron status report (lines 225-306) -/

structure BorrowedEntry where
  book_id : Nat
  title : String
  author : String
  due_date : Int
deriving Repr, DecidableEq

structure HistoryEntry where
  book_id : Nat
  title : String
  author : String
  borrow_date : Int
  due_date : Int
  return_date : Option Int
  fee_incurred : ℚ
deriving Repr, DecidableEq

structure PatronReport where
  currently_borrowed : List BorrowedEntry
  total_late_fees : ℚ
  books_borrowed_count : Nat
  borrowing_history : List HistoryEntry
deriving Repr, DecidableEq

inductive ReportResult where
  | error (msg : String)
  | report (r : PatronReport)
deriving Repr, DecidableEq

/-- The SQL `SELECT br.*, b.title, b.author FROM borrow_records br JOIN
books b ON br.book_id = b.id WHERE br.patron_id = ?` before sorting: the
patron's records inner-joined with their books. -/
def patronRowsUnsorted (s : LibraryState) (patron_id : String) :
    List (BorrowRecord × Book) :=
  (s.records.filter (fun r => r.patron_id == patron_id)).filterMap
    (fun r => (get_book_by_id s r.book_id).map (fun b => (r, b)))

/-- The row order of the query's `ORDER BY br.borrow_date`. -/
def rowLE (a b : BorrowRecord × Book) : Prop :=
  a.1.borrow_date ≤ b.1.borrow_date

instance : DecidableRel rowLE := fun _ _ => Int.decLe _ _

instance : IsTotal (BorrowRecord × Book) rowLE :=
  ⟨fun a b => le_total a.1.borrow_date b.1.borrow_date⟩

instance : IsTrans (BorrowRecord × Book) rowLE :=
  ⟨fun _ _ _ h h2 => le_trans h h2⟩

/-- The joined rows sorted by borrow date. -/
def patronRows (s : LibraryState) (patron_id : String) :
    List (BorrowRecord × Book) :=
  List.insertionSort rowLE (patronRowsUnsorted s patron_id)

/-- Overdue days of one history row: compare instant is the return date
if the record is closed, `now` otherwise (lines 272-274). -/
def daysOverdueAt (nowi due : Int) (ret : Option Int) : Int :=
  max 0 (daysDiff (ret.getD nowi) due)

/-- `get_patron_status_report` (lines 225-306).  Date strings are kept as
raw instants (the `%Y-%m-%d` rendering is not modelled). -/
def get_patron_status_report (s : LibraryState) (nowi : Int)
    (patron_id : String) : ReportResult :=
  if !(validPatronId patron_id) then
    .error "Invalid patron ID. Must be exactly 6 digits."
  else
    let currently_borrowed :=
      (get_patron_borrowed_books s patron_id).filterMap (fun r =>
        (get_book_by_id s r.book_id).map (fun b =>
          BorrowedEntry.mk r.book_id b.title b.author r.due_date))
    let rows := patronRows s patron_id
    let fees := rows.map (fun p => reportFee (daysOverdueAt nowi p.1.due_date p.1.return_date))
    let history := rows.map (fun p =>
      HistoryEntry.mk p.1.book_id p.2.title p.2.author p.1.borrow_date p.1.due_date
        p.1.return_date (round2 (reportFee (daysOverdueAt nowi p.1.due_date p.1.return_date))))
    .report ⟨currently_borrowed, round2 fees.sum, get_patron_borrow_count s patron_id, history⟩

/-! ### Payment orchestrator

`pay_late_fees` and `refund_late_fee_payment` live in a service module
that is not under `src/`; they are modelled from the spec (section 4.4),
whose steps the repository's mock/stub tests exercise.  A gateway call is
`Except.error` when the Python gateway raises; the list in the second
component of a result records the gateway invocations that were made. -/

structure PaymentGateway where
  process_payment : String → ℚ → String → Except String (Bool × Option String × String)
  refund_payment : String → ℚ → Except String (Bool × String)

inductive GatewayCall where
  | processPayment (patron_id : String) (amount : ℚ) (description : String)
  | refundPayment (transaction_id : String) (amount : ℚ)
deriving Repr, DecidableEq

/-- The `description` argument passed to `process_payment`. -/
def feeDescription (b : Book) : String :=
  "Late fees for \x27" ++ b.title ++ "\x27"

/-- The fee-quote dictionary as `pay_late_fees` sees it: possibly absent
altogether, possibly lacking the `fee_amount` field (the repository's
tests stub both shapes). -/
structure QuoteDict where
  fee_amount : Option ℚ
deriving Repr, DecidableEq

/-- Modelled from the spec: steps 1-7 of `pay_late_fees` (section 4.4),
over an already-computed quote and book lookup. -/
def pay_late_fees_core (quote : Option QuoteDict) (book : Option Book)
    (patron_id : String) (gateway : PaymentGateway) :
    (Bool × String × Option String) × List GatewayCall :=
  match quote with
  | none => ((false, "Unable to calculate late fees.", none), [])
  | some q =>
    match q.fee_amount with
    | none => ((false, "Unable to calculate late fees.", none), [])
    | some fee =>
      if fee ≤ 0 then ((false, "No late fees to pay for this book.", none), [])
      else
        match book with
        | none => ((false, "Book not found.", none), [])
        | some b =>
          match gateway.process_payment patron_id fee (feeDescription b) with
          | .ok (true, tid, msg) =>
            ((true, "Payment successful! " ++ msg, tid), [.processPayment patron_id fee (feeDescription b)])
          | .ok (false, _, msg) =>
            ((false, "Payment failed: " ++ msg, none), [.processPayment patron_id fee (feeDescription b)])
          | .error e =>
            ((false, "Payment processing error: " ++ e, none), [.processPayment patron_id fee (feeDescription b)])

/-- Modelled from the spec: `pay_late_fees(patron_id, book_id, gateway)`
— computes the quote with `calculate_late_fee_for_book` and resolves the
book, then runs the payment steps. -/
def pay_late_fees (s : LibraryState) (nowi : Int) (patron_id : String)
    (book_id : Nat) (gateway : PaymentGateway) :
    (Bool × String × Option String) × List GatewayCall :=
  pay_late_fees_core
    (some ⟨some (calculate_late_fee_for_book s nowi patron_id book_id).fee_amount⟩)
    (get_book_by_id s book_id) patron_id gateway

/-- Modelled from the spec: `refund_late_fee_payment(transaction_id,
amount, gateway)` (section 4.4). -/
def refund_late_fee_payment (transaction_id : String) (amount : ℚ)
    (gateway : PaymentGateway) : (Bool × String) × List GatewayCall :=
  match gateway.refund_payment transaction_id amount with
  | .ok (true, msg) => ((true, msg), [.refundPayment transaction_id amount])
  | .ok (false, msg) =>
    ((false, "Refund failed: " ++ msg), [.refundPayment transaction_id amount])
  | .error e =>
    ((false, "Refund processing error: " ++ e), [.refundPayment transaction_id amount])

/-! ### Spec-side definitions for refinement comparison -/

/-- The claim's fee formula, transcribed from the spec's words: 0 for no
overdue days, 0.50 per day for the first 7 days, 1.00 per day beyond,
capped at 15.00 in all cases. -/
def specTieredFee (d : ℕ) : ℚ :=
  min 15.00 (if d = 0 then 0 else if d ≤ 7 then (d : ℚ) * 0.50 else 7 * 0.50 + ((d : ℚ) - 7) * 1.00)

/-! ### Sample data for concrete evaluations -/

/-- The empty library. -/
def sEmpty : LibraryState := ⟨[], []⟩

/-- A sample book (the one the repository's search tests use). -/
def bGatsby : Book := ⟨1, "The Great Gatsby", "F. Scott Fitzgerald", "9780743273565", 3, 3⟩

/-- A one-book catalog with no borrow records. -/
def sCatalog : LibraryState := ⟨[bGatsby], []⟩

/-- The sample book borrowed by patron 123456, due at day 14, not yet
returned. -/
def sOverdue : LibraryState := ⟨[bGatsby], [⟨"123456", 1, 0, 14 * 86400, none⟩]⟩

/-- The sample book borrowed by patron 123456 and already returned (a
closed record only). -/
def sReturned : LibraryState := ⟨[bGatsby], [⟨"123456", 1, 0, 14 * 86400, some (20 * 86400)⟩]⟩

/-- A gateway whose calls always raise, like the mocks in the
repository's payment tests. -/
def gThrow : PaymentGateway :=
  ⟨fun _ _ _ => .error "Network timeout", fun _ _ => .error "API connection failed"⟩

/-- Patron 123456 with five open borrow records, in a library whose
catalog is empty (so any requested book id is unresolvable). -/
def sFiveNoBook : LibraryState :=
  ⟨[], [⟨"123456", 1, 0, 14 * 86400, none⟩, ⟨"123456", 2, 0, 14 * 86400, none⟩,
        ⟨"123456", 3, 0, 14 * 86400, none⟩, ⟨"123456", 4, 0, 14 * 86400, none⟩,
        ⟨"123456", 5, 0, 14 * 86400, none⟩]⟩

/-- Patron 123456 with five open borrow records and an available sixth
book in the catalog. -/
def sFiveBorrowed : LibraryState :=
  ⟨[bGatsby], [⟨"123456", 2, 0, 14 * 86400, none⟩, ⟨"123456", 3, 0, 14 * 86400, none⟩,
        ⟨"123456", 4, 0, 14 * 86400, none⟩, ⟨"123456", 5, 0, 14 * 86400, none⟩,
        ⟨"123456", 6, 0, 14 * 86400, none⟩]⟩

/-- The status report of patron 123456 in `sOverdue` at day 19: one open
loan, 5 days overdue, fee 2.50. -/
def rSample : PatronReport :=
  ⟨[⟨1, "The Great Gatsby", "F. Scott Fitzgerald", 14 * 86400⟩], 2.5, 1,
   [⟨1, "The Great Gatsby", "F. Scott Fitzgerald", 0, 14 * 86400, none, 2.5⟩]⟩

/-! ### Helper lemmas -/

/-- `find?` returns the element when it is the unique one satisfying the
predicate. -/
theorem find?_unique {α : Type} {p : α → Bool} {l : List α} {b : α}
    (hmem : b ∈ l) (hp : p b = true)
    (huniq : ∀ x ∈ l, p x = true → x = b) : l.find? p = some b := by
  induction l with
  | nil => cases hmem
  | cons a t ih =>
    by_cases ha : p a = true
    · rw [List.find?_cons_of_pos _ ha, huniq a (List.mem_cons_self a t) ha]
    · rw [List.find?_cons_of_neg _ ha]
      rcases List.mem_cons.mp hmem with rfl | hbt
      · exact absurd hp ha
      · exact ih hbt (fun x hx hpx => huniq x (List.mem_cons_of_mem _ hx) hpx)

/-! ### Claims -/

/-- C1: both tier computations of the source (the one in
`calculate_late_fee_for_book` and the one in `get_patron_status_report`)
compute, for every non-negative `days_overdue` `d`, exactly the claimed
schedule: 0 at `d = 0`, `d * 0.50` for `1 ≤ d ≤ 7`, `7*0.50 + (d-7)*1.00`
beyond, capped at 15.00 in all cases; in particular `d = 1` gives 0.50,
`d = 7` gives 3.50, `d = 8` gives 4.50, and every `d ≥ 19` gives 15.00. -/
theorem claim_c1 (d : ℕ) :
    calcFee d = specTieredFee d ∧
    reportFee d = specTieredFee d ∧
    specTieredFee 0 = 0 ∧
    specTieredFee 1 = 0.50 ∧
    specTieredFee 7 = 3.50 ∧
    specTieredFee 8 = 4.50 ∧
    specTieredFee d ≤ 15.00 ∧
    (19 ≤ d → specTieredFee d = 15.00) := by
  have hc : ((d : Int) : ℚ) = (d : ℚ) := by push_cast; ring
  have hmain : calcFee d = specTieredFee d ∧ reportFee d = specTieredFee d := by
    unfold calcFee reportFee specTieredFee
    rcases Nat.eq_zero_or_pos d with h0 | hpos
    · subst h0; norm_num
    · have hd0 : d ≠ 0 := Nat.pos_iff_ne_zero.mp hpos
      have hdz : (0 : Int) < (d : Int) := by exact_mod_cast hpos
      by_cases h7 : d ≤ 7
      · have h7i : (d : Int) ≤ 7 := by exact_mod_cast h7
        rw [if_pos h7i, if_neg hd0, if_pos h7, if_pos hdz, hc]
        exact ⟨min_comm _ _, min_comm _ _⟩
      · have h7i : ¬ ((d : Int) ≤ 7) := by exact_mod_cast h7
        rw [if_neg h7i, if_neg hd0, if_neg h7, if_pos hdz, hc]
        exact ⟨min_comm _ _, min_comm _ _⟩
  refine ⟨hmain.1, hmain.2, by norm_num [specTieredFee], by norm_num [specTieredFee],
    by norm_num [specTieredFee], by norm_num [specTieredFee], min_le_left _ _, ?_⟩
  intro h19
  have hd0 : d ≠ 0 := by omega
  have h7 : ¬ d ≤ 7 := by omega
  have h19q : (19 : ℚ) ≤ (d : ℚ) := by exact_mod_cast h19
  unfold specTieredFee
  rw [if_neg hd0, if_neg h7]
  rw [min_eq_left (show (15.00 : ℚ) ≤ 7 * 0.50 + ((d : ℚ) - 7) * 1.00 by linarith)]

/-- C1 witness: at `d = 19` the cap applies and the fee is 15.00. -/
theorem claim_c1_witness : specTieredFee 19 = 15.00 :=
  (claim_c1 19).2.2.2.2.2.2.2 (by decide)

/-- C7: `add_book_to_catalog` applies its checks in a fixed order — title
non-empty after trim and at most 200 characters, then author non-empty
after trim and at most 100 characters, then isbn exactly 13 characters
(length only), then `total_copies` a positive integer, then no duplicate
isbn — the first failing check determining the message; on success the
book is inserted with `available_copies = total_copies` and trimmed
title and author. -/
theorem claim_c7 (s : LibraryState) (title author isbn : String) (tc : PyVal) :
    (pyStrip title = "" →
      add_book_to_catalog s title author isbn tc = ((false, "Title is required."), s)) ∧
    (pyStrip title ≠ "" → 200 < pyLen (pyStrip title) →
      add_book_to_catalog s title author isbn tc
        = ((false, "Title must be less than 200 characters."), s)) ∧
    (pyStrip title ≠ "" → pyLen (pyStrip title) ≤ 200 → pyStrip author = "" →
      add_book_to_catalog s title author isbn tc = ((false, "Author is required."), s)) ∧
    (pyStrip title ≠ "" → pyLen (pyStrip title) ≤ 200 → pyStrip author ≠ "" →
      100 < pyLen (pyStrip author) →
      add_book_to_catalog s title author isbn tc
        = ((false, "Author must be less than 100 characters."), s)) ∧
    (pyStrip title ≠ "" → pyLen (pyStrip title) ≤ 200 → pyStrip author ≠ "" →
      pyLen (pyStrip author) ≤ 100 → pyLen isbn ≠ 13 →
      add_book_to_catalog s title author isbn tc
        = ((false, "ISBN must be exactly 13 digits."), s)) ∧
    (pyStrip title ≠ "" → pyLen (pyStrip title) ≤ 200 → pyStrip author ≠ "" →
      pyLen (pyStrip author) ≤ 100 → pyLen isbn = 13 → tc = PyVal.nonInt →
      add_book_to_catalog s title author isbn tc
        = ((false, "Total copies must be a positive integer."), s)) ∧
    (∀ n : Int, pyStrip title ≠ "" → pyLen (pyStrip title) ≤ 200 → pyStrip author ≠ "" →
      pyLen (pyStrip author) ≤ 100 → pyLen isbn = 13 → tc = PyVal.int n → n ≤ 0 →
      add_book_to_catalog s title author isbn tc
        = ((false, "Total copies must be a positive integer."), s)) ∧
    (∀ (n : Int) (b : Book), pyStrip title ≠ "" → pyLen (pyStrip title) ≤ 200 →
      pyStrip author ≠ "" → pyLen (pyStrip author) ≤ 100 → pyLen isbn = 13 →
      tc = PyVal.int n → 0 < n → get_book_by_isbn s isbn = some b →
      add_book_to_catalog s title author isbn tc
        = ((false, "A book with this ISBN already exists."), s)) ∧
    (∀ n : Int, pyStrip title ≠ "" → pyLen (pyStrip title) ≤ 200 → pyStrip author ≠ "" →
      pyLen (pyStrip author) ≤ 100 → pyLen isbn = 13 → tc = PyVal.int n → 0 < n →
      get_book_by_isbn s isbn = none →
      add_book_to_catalog s title author isbn tc
        = ((true, "Book \"" ++ pyStrip title ++ "\" has been successfully added to the catalog."),
           { s with books := s.books ++
              [⟨s.books.foldr (fun b m => max m b.id) 0 + 1,
                pyStrip title, pyStrip author, isbn, n, n⟩] })) := by
  refine ⟨?_, ?_, ?_, ?_, ?_, ?_, ?_, ?_, ?_⟩
  · intro h1
    simp [add_book_to_catalog, h1]
  · intro h1 h2
    simp [add_book_to_catalog, h1, h2]
  · intro h1 h2 h3
    simp [add_book_to_catalog, h1, h3, show ¬ 200 < pyLen (pyStrip title) by omega]
  · intro h1 h2 h3 h4
    simp [add_book_to_catalog, h1, h3, h4, show ¬ 200 < pyLen (pyStrip title) by omega]
  · intro h1 h2 h3 h4 h5
    simp [add_book_to_catalog, h1, h3, h5, show ¬ 200 < pyLen (pyStrip title) by omega,
      show ¬ 100 < pyLen (pyStrip author) by omega]
  · intro h1 h2 h3 h4 h5 h6
    subst h6
    simp [add_book_to_catalog, h1, h3, h5, show ¬ 200 < pyLen (pyStrip title) by omega,
      show ¬ 100 < pyLen (pyStrip author) by omega]
  · intro n h1 h2 h3 h4 h5 h6 h7
    subst h6
    simp [add_book_to_catalog, h1, h3, h5, h7, show ¬ 200 < pyLen (pyStrip title) by omega,
      show ¬ 100 < pyLen (pyStrip author) by omega]
  · intro n b h1 h2 h3 h4 h5 h6 h7 h8
    subst h6
    simp [add_book_to_catalog, h1, h3, h5, h8, show ¬ n ≤ 0 by omega,
      show ¬ 200 < pyLen (pyStrip title) by omega,
      show ¬ 100 < pyLen (pyStrip author) by omega]
  · intro n h1 h2 h3 h4 h5 h6 h7 h8
    subst h6
    simp [add_book_to_catalog, h1, h3, h5, h8, insert_book, show ¬ n ≤ 0 by omega,
      show ¬ 200 < pyLen (pyStrip title) by omega,
      show ¬ 100 < pyLen (pyStrip author) by omega]

/-- C7 witness: a concrete successful add into the empty catalog, with
whitespace trimmed from title and author and `available_copies` equal to
`total_copies`. -/
theorem claim_c7_witness :
    add_book_to_catalog sEmpty " The Great Gatsby " " F. Scott Fitzgerald " "9780743273565"
        (PyVal.int 3)
      = ((true, "Book \"The Great Gatsby\" has been successfully added to the catalog."),
         ⟨[⟨1, "The Great Gatsby", "F. Scott Fitzgerald", "9780743273565", 3, 3⟩], []⟩) :=
  ((claim_c7 sEmpty " The Great Gatsby " " F. Scott Fitzgerald " "9780743273565"
      (PyVal.int 3)).2.2.2.2.2.2.2.2 3 (by decide) (by decide) (by decide) (by decide)
      (by decide) rfl (by decide) rfl).trans (by decide)

/-- Shared step: a non-positive computed fee short-circuits
`pay_late_fees` before any gateway interaction. -/
theorem pay_no_fee_of_nonpos (s : LibraryState) (nowi : Int) (patron_id : String)
    (book_id : Nat) (g : PaymentGateway)
    (h : (calculate_late_fee_for_book s nowi patron_id book_id).fee_amount ≤ 0) :
    pay_late_fees s nowi patron_id book_id g
      = ((false, "No late fees to pay for this book.", none), []) := by
  unfold pay_late_fees pay_late_fees_core
  simp [h]

/-- C5: whenever the computed fee quote's `fee_amount` is zero or
negative, `pay_late_fees` fails with "No late fees to pay for this book."
and performs no gateway call at all. -/
theorem claim_c5 (s : LibraryState) (nowi : Int) (patron_id : String) (book_id : Nat)
    (g : PaymentGateway)
    (h : (calculate_late_fee_for_book s nowi patron_id book_id).fee_amount ≤ 0) :
    pay_late_fees s nowi patron_id book_id g
      = ((false, "No late fees to pay for this book.", none), []) :=
  pay_no_fee_of_nonpos s nowi patron_id book_id g h

/-- C5 witness: paying for a non-existent book quotes a zero fee and is
rejected without any gateway invocation. -/
theorem claim_c5_witness :
    pay_late_fees sEmpty 0 "123456" 1 gThrow
      = ((false, "No late fees to pay for this book.", none), []) :=
  claim_c5 sEmpty 0 "123456" 1 gThrow (le_of_eq (by rfl))

/-- C6: a gateway exception during `process_payment` (given a positive
computed fee and a resolvable book) is caught and reported as
"Payment processing error: <text>" with no transaction id, and a gateway
exception during `refund_payment` is caught by `refund_late_fee_payment`
and reported as "Refund processing error: <text>"; neither propagates. -/
theorem claim_c6 :
    (∀ (s : LibraryState) (nowi : Int) (patron_id : String) (book_id : Nat)
        (g : PaymentGateway) (book : Book) (e : String),
      0 < (calculate_late_fee_for_book s nowi patron_id book_id).fee_amount →
      get_book_by_id s book_id = some book →
      g.process_payment patron_id
          (calculate_late_fee_for_book s nowi patron_id book_id).fee_amount
          (feeDescription book) = .error e →
      (pay_late_fees s nowi patron_id book_id g).1
        = (false, "Payment processing error: " ++ e, none)) ∧
    (∀ (transaction_id : String) (amount : ℚ) (g : PaymentGateway) (e : String),
      g.refund_payment transaction_id amount = .error e →
      (refund_late_fee_payment transaction_id amount g).1
        = (false, "Refund processing error: " ++ e)) := by
  constructor
  · intro s nowi patron_id book_id g book e hfee hbook hgw
    unfold pay_late_fees pay_late_fees_core
    simp [hbook, hgw, not_le.mpr hfee]
  · intro transaction_id amount g e hgw
    unfold refund_late_fee_payment
    simp [hgw]

/-- C6 witness: a gateway that raises on both calls, against a book 20
days overdue (fee 15.00): both error texts are reported and wrapped. -/
theorem claim_c6_witness :
    (pay_late_fees sOverdue (34 * 86400) "123456" 1 gThrow).1
      = (false, "Payment processing error: Network timeout", none) ∧
    (refund_late_fee_payment "txn_exception" 7.25 gThrow).1
      = (false, "Refund processing error: API connection failed") := by
  have hq : calculate_late_fee_for_book sOverdue (34 * 86400) "123456" 1
      = ⟨calcFee 20, 20, "overdue"⟩ := rfl
  constructor
  · exact (claim_c6.1 sOverdue (34 * 86400) "123456" 1 gThrow bGatsby "Network timeout"
      (by rw [hq]; norm_num [calcFee]) rfl rfl).trans (by decide)
  · exact (claim_c6.2 "txn_exception" 7.25 gThrow "API connection failed" rfl).trans (by decide)

/-- C8 (failing input for the claim): a whitespace-only search term with
field "title" is stripped to the empty string, and the empty string is a
substring of every title, so the search returns the whole catalog, not
the empty list the claim (and the repository's own
`test_search_whitespace_term`) requires. -/
theorem claim_c8 :
    search_books_in_catalog sCatalog (.str "   ") (.str "title") = [bGatsby] ∧
    [bGatsby] ≠ ([] : List Book) := by
  constructor
  · decide
  · decide

/-- C9: ISBN search is exact: with a non-empty term, it returns exactly
the unique book whose stored ISBN equals the stripped term, the empty
list when no stored ISBN equals it, and in particular the empty list for
any term shorter than the 13 characters every stored ISBN has (such as a
strict prefix or substring of a stored ISBN). -/
theorem claim_c9 (s : LibraryState) (term : String) (hne : term ≠ "") :
    (∀ b : Book, s.books.Pairwise (fun a c => a.isbn ≠ c.isbn) → b ∈ s.books →
      b.isbn = pyStrip term →
      search_books_in_catalog s (.str term) (.str "isbn") = [b]) ∧
    ((∀ b ∈ s.books, b.isbn ≠ pyStrip term) →
      search_books_in_catalog s (.str term) (.str "isbn") = []) ∧
    ((∀ b ∈ s.books, pyLen b.isbn = 13) → pyLen (pyStrip term) < 13 →
      search_books_in_catalog s (.str term) (.str "isbn") = []) := by
  have hsearch : ∀ r : Option Book,
      get_book_by_isbn s (pyStrip term) = r →
      search_books_in_catalog s (.str term) (.str "isbn")
        = (match r with | some b => [b] | none => []) := by
    intro r hr
    simp only [search_books_in_catalog]
    rw [if_neg (by simpa using hne), if_neg (by decide), if_neg (by decide),
      if_pos (by decide), hr]
  refine ⟨?_, ?_, ?_⟩
  · intro b hpair hmem hisbn
    have huniq : ∀ x ∈ s.books, (x.isbn == pyStrip term) = true → x = b := by
      intro x hx hpx
      have hxe : x.isbn = pyStrip term := by simpa using hpx
      by_contra hxb
      exact (hpair.forall (fun a c h => fun hcc => h hcc.symm) hx hmem hxb) (hxe.trans hisbn.symm)
    have : get_book_by_isbn s (pyStrip term) = some b :=
      find?_unique hmem (by simpa using hisbn) huniq
    rw [hsearch (some b) this]
  · intro hnone
    have : get_book_by_isbn s (pyStrip term) = none := by
      unfold get_book_by_isbn
      rw [List.find?_eq_none]
      intro x hx
      simpa using hnone x hx
    rw [hsearch none this]
  · intro hlen hshort
    have : get_book_by_isbn s (pyStrip term) = none := by
      unfold get_book_by_isbn
      rw [List.find?_eq_none]
      intro x hx
      simp only [beq_iff_eq]
      intro hcc
      have h13 := hlen x hx
      rw [← hcc] at hshort
      omega
    rw [hsearch none this]

/-- C9 witness: exact ISBN search hits the sample book; the strict prefix
"978074" of its ISBN returns zero results. -/
theorem claim_c9_witness :
    search_books_in_catalog sCatalog (.str "9780743273565") (.str "isbn") = [bGatsby] ∧
    search_books_in_catalog sCatalog (.str "978074") (.str "isbn") = [] :=
  ⟨(claim_c9 sCatalog "9780743273565" (by decide)).1 bGatsby (by decide) (by decide) (by decide),
   (claim_c9 sCatalog "978074" (by decide)).2.2 (by decide) (by decide)⟩

/-- C10: for a valid patron and an existing book all of whose borrow
records by that patron are closed, `calculate_late_fee_for_book` quotes
`{fee_amount := 0, days_overdue := 0, status := "no borrow record"}` (it
consults only open records), and consequently `pay_late_fees` fails with
"No late fees to pay for this book." without calling the gateway. -/
theorem claim_c10 (s : LibraryState) (nowi : Int) (patron_id : String) (book_id : Nat)
    (g : PaymentGateway) (book : Book)
    (hpid : validPatronId patron_id = true)
    (hbook : get_book_by_id s book_id = some book)
    (hclosed : ∀ rec ∈ s.records, rec.patron_id = patron_id → rec.book_id = book_id →
      rec.return_date.isSome) :
    calculate_late_fee_for_book s nowi patron_id book_id = ⟨0, 0, "no borrow record"⟩ ∧
    pay_late_fees s nowi patron_id book_id g
      = ((false, "No late fees to pay for this book.", none), []) := by
  have hfind : (get_patron_borrowed_books s patron_id).find?
      (fun r => r.book_id == book_id) = none := by
    rw [List.find?_eq_none]
    intro r hr
    rw [get_patron_borrowed_books, List.mem_filter] at hr
    obtain ⟨hmem, hpred⟩ := hr
    have hpid' : r.patron_id = patron_id := by
      have := (Bool.and_eq_true _ _).mp hpred
      simpa using this.1
    have hopen : r.return_date.isNone := by
      have := (Bool.and_eq_true _ _).mp hpred
      simpa using this.2
    simp only [beq_iff_eq]
    intro hbid
    have := hclosed r hmem hpid' hbid
    rw [Option.isNone_iff_eq_none.mp hopen] at this
    simp at this
  have hcalc : calculate_late_fee_for_book s nowi patron_id book_id
      = ⟨0, 0, "no borrow record"⟩ := by
    unfold calculate_late_fee_for_book
    rw [hpid]
    simp [hbook, hfind]
  exact ⟨hcalc, pay_no_fee_of_nonpos s nowi patron_id book_id g (le_of_eq (by rw [hcalc]))⟩

/-- C10 witness: the sample returned loan (6 days past due at return
time) is quoted no fee and cannot be paid for. -/
theorem claim_c10_witness :
    calculate_late_fee_for_book sReturned (25 * 86400) "123456" 1
      = ⟨0, 0, "no borrow record"⟩ ∧
    pay_late_fees sReturned (25 * 86400) "123456" 1 gThrow
      = ((false, "No late fees to pay for this book.", none), []) :=
  claim_c10 sReturned (25 * 86400) "123456" 1 gThrow bGatsby (by decide) (by decide)
    (by decide)

/-- C3 counterexample: the claim as stated is false — a patron with five
open records who requests a book id that does not resolve is refused with
"Book not found.", not with the maximum-borrowing-limit message. -/
theorem claim_c3_counterexample :
    get_patron_borrow_count sFiveNoBook "123456" = 5 ∧
    (borrow_book_by_patron sFiveNoBook 0 "123456" 6).1 = (false, "Book not found.") ∧
    "Book not found." ≠ "You have reached the maximum borrowing limit of 5 books." :=
  ⟨by decide, by decide, by decide⟩

/-- C3 (amended): whenever a patron's open-record count is at least 5,
any borrow attempt by that patron fails, inserts no record and changes no
availability; the failure message is the maximum-borrowing-limit message
whenever the patron id is valid and the requested book exists with a copy
available (earlier checks otherwise determine the message). -/
theorem claim_c3 (s : LibraryState) (nowi : Int) (patron_id : String) (book_id : Nat)
    (h5 : 5 ≤ get_patron_borrow_count s patron_id) :
    (borrow_book_by_patron s nowi patron_id book_id).1.1 = false ∧
    (borrow_book_by_patron s nowi patron_id book_id).2 = s ∧
    (validPatronId patron_id = true → ∀ book, get_book_by_id s book_id = some book →
      0 < book.available_copies →
      (borrow_book_by_patron s nowi patron_id book_id).1.2
        = "You have reached the maximum borrowing limit of 5 books.") := by
  unfold borrow_book_by_patron
  by_cases hv : validPatronId patron_id = true
  · rw [if_neg (by simp [hv])]
    cases hbook : get_book_by_id s book_id with
    | none =>
      exact ⟨rfl, rfl, fun _ book hb => by cases hb⟩
    | some book =>
      dsimp only
      by_cases hav : book.available_copies ≤ 0
      · rw [if_pos hav]
        refine ⟨rfl, rfl, ?_⟩
        intro _ book' hb hpos
        injection hb with hb'
        subst hb'
        omega
      · rw [if_neg hav, if_pos h5]
        exact ⟨rfl, rfl, fun _ _ _ _ => rfl⟩
  · rw [if_pos (by simp [hv])]
    exact ⟨rfl, rfl, fun hv' => absurd hv' hv⟩

/-- C3 witness: with the sixth book present and available, the refusal
carries the maximum-borrowing-limit message and the state is unchanged. -/
theorem claim_c3_witness :
    (borrow_book_by_patron sFiveBorrowed 0 "123456" 1).1.1 = false ∧
    (borrow_book_by_patron sFiveBorrowed 0 "123456" 1).2 = sFiveBorrowed ∧
    (borrow_book_by_patron sFiveBorrowed 0 "123456" 1).1.2
      = "You have reached the maximum borrowing limit of 5 books." := by
  have h := claim_c3 sFiveBorrowed 0 "123456" 1 (by decide)
  exact ⟨h.1, h.2.1, h.2.2 (by decide) bGatsby (by decide) (by decide)⟩

/-- `find?` over a pointwise-updated list, when the update preserves the
predicate and agrees with `g` on matching elements. -/
theorem find?_map_upd {α β : Type} (f g : α → β) (p : α → Bool) (q : β → Bool)
    (h : ∀ a, q (f a) = p a) (h2 : ∀ a, p a = true → f a = g a) (l : List α) :
    (l.map f).find? q = (l.find? p).map g := by
  induction l with
  | nil => rfl
  | cons a t ih =>
    simp only [List.map_cons, List.find?_cons, h a]
    cases hpa : p a
    · simpa using ih
    · simp [h2 a hpa]

/-- Updating availability maps the lookup result. -/
theorem find?_id_map_update (l : List Book) (book_id : Nat) (delta : Int) :
    (l.map (fun b => if b.id == book_id
        then { b with available_copies := b.available_copies + delta } else b)).find?
      (fun b => b.id == book_id)
    = (l.find? (fun b => b.id == book_id)).map
        (fun b => { b with available_copies := b.available_copies + delta }) := by
  refine find?_map_upd _ _ _ _ ?_ ?_ l
  · intro a
    by_cases h : (a.id == book_id) = true <;> simp [h]
  · intro a h
    simp [h]

/-- `get_book_by_id` after `update_book_availability` on the same id. -/
theorem get_book_by_id_update_avail (s : LibraryState) (book_id : Nat) (delta : Int) :
    get_book_by_id (update_book_availability s book_id delta).2 book_id
      = (get_book_by_id s book_id).map
          (fun b => { b with available_copies := b.available_copies + delta }) := by
  unfold update_book_availability get_book_by_id
  by_cases h : (s.books.find? (fun b => b.id == book_id)).isSome
  · rw [if_pos h]
    exact find?_id_map_update s.books book_id delta
  · rw [if_neg h]
    rw [Option.not_isSome_iff_eq_none] at h
    rw [h]
    rfl

/-- After closing every open record of `(patron_id, book_id)`, the
patron's open records contain none for that book. -/
theorem find?_open_after_close (l : List BorrowRecord) (patron_id : String)
    (book_id : Nat) (d : Int) :
    ((l.map (fun r => if r.patron_id == patron_id && r.book_id == book_id && r.return_date.isNone
        then { r with return_date := some d } else r)).filter
      (fun r => r.patron_id == patron_id && r.return_date.isNone)).find?
        (fun r => r.book_id == book_id) = none := by
  rw [List.find?_eq_none]
  intro x hx
  rw [List.mem_filter] at hx
  obtain ⟨hmem, hpred⟩ := hx
  rw [List.mem_map] at hmem
  obtain ⟨r, hr, hxr⟩ := hmem
  by_cases hcond : (r.patron_id == patron_id && r.book_id == book_id && r.return_date.isNone) = true
  · rw [if_pos hcond] at hxr
    rw [← hxr] at hpred
    simp at hpred
  · rw [if_neg hcond] at hxr
    subst hxr
    intro hbid
    simp only [Bool.and_eq_true] at hpred hcond
    exact hcond ⟨⟨hpred.1, hbid⟩, hpred.2⟩

/-- A successful borrow can only come out of the success branch: the
patron id is valid, the book resolves, a copy is available, and the
open-record count is below 5. -/
theorem borrow_success_inv (s : LibraryState) (nowi : Int) (patron_id : String) (book_id : Nat)
    (hsucc : (borrow_book_by_patron s nowi patron_id book_id).1.1 = true) :
    validPatronId patron_id = true ∧ ∃ book, get_book_by_id s book_id = some book ∧
      0 < book.available_copies ∧ get_patron_borrow_count s patron_id < 5 := by
  unfold borrow_book_by_patron at hsucc
  by_cases hv : validPatronId patron_id = true
  · rw [if_neg (by simp [hv])] at hsucc
    cases hb : get_book_by_id s book_id with
    | none => rw [hb] at hsucc; simp at hsucc
    | some book =>
      rw [hb] at hsucc
      dsimp only at hsucc
      by_cases hav : book.available_copies ≤ 0
      · rw [if_pos hav] at hsucc; simp at hsucc
      · rw [if_neg hav] at hsucc
        by_cases h5 : 5 ≤ get_patron_borrow_count s patron_id
        · rw [if_pos h5] at hsucc; simp at hsucc
        · exact ⟨hv, book, rfl, by omega, by omega⟩
  · rw [if_pos (by simp [hv])] at hsucc
    simp at hsucc

/-- The success branch of `borrow_book_by_patron`, written out: the new
open record is appended and the book's availability is decremented. -/
theorem borrow_characterize (s : LibraryState) (nowi : Int) (patron_id : String)
    (book_id : Nat) (book : Book)
    (hv : validPatronId patron_id = true)
    (hb : get_book_by_id s book_id = some book)
    (hav : 0 < book.available_copies)
    (h5 : get_patron_borrow_count s patron_id < 5) :
    borrow_book_by_patron s nowi patron_id book_id
      = ((true, "Successfully borrowed \"" ++ book.title ++ "\"."),
         ⟨s.books.map (fun b => if b.id == book_id
             then { b with available_copies := b.available_copies + (-1) } else b),
          s.records ++ [⟨patron_id, book_id, nowi, nowi + 14 * 86400, none⟩]⟩) := by
  unfold borrow_book_by_patron
  rw [if_neg (by simp [hv]), hb]
  dsimp only
  rw [if_neg (by omega), if_neg (by omega)]
  simp only [insert_borrow_record]
  unfold update_book_availability
  rw [if_pos (show ((({ s with records := s.records ++
      [⟨patron_id, book_id, nowi, nowi + 14 * 86400, none⟩] } : LibraryState)).books.find?
        (fun b => b.id == book_id)).isSome by
    unfold get_book_by_id at hb
    simp [hb])]

/-- The success branch of `return_book_by_patron`, written out: the open
record(s) for the pair are closed and availability is incremented. -/
theorem return_characterize (s : LibraryState) (nowi : Int) (patron_id : String)
    (book_id : Nat) (book : Book) (r : BorrowRecord)
    (hv : validPatronId patron_id = true)
    (hb : get_book_by_id s book_id = some book)
    (hfind : (get_patron_borrowed_books s patron_id).find? (fun x => x.book_id == book_id)
      = some r) :
    return_book_by_patron s nowi patron_id book_id
      = ((true, "Successfully returned \"" ++ book.title ++ "\"."),
         ⟨s.books.map (fun b => if b.id == book_id
             then { b with available_copies := b.available_copies + 1 } else b),
          s.records.map (fun x =>
            if x.patron_id == patron_id && x.book_id == book_id && x.return_date.isNone
            then { x with return_date := some nowi } else x)⟩) := by
  unfold return_book_by_patron
  rw [if_neg (by simp [hv]), hb]
  dsimp only
  rw [hfind]
  simp only [update_borrow_record_return_date]
  unfold update_book_availability
  rw [if_pos (by unfold get_book_by_id at hb; simp [hb])]

/-- A successful return can only come out of the success branch. -/
theorem return_success_inv (s : LibraryState) (nowi : Int) (patron_id : String) (book_id : Nat)
    (hsucc : (return_book_by_patron s nowi patron_id book_id).1.1 = true) :
    validPatronId patron_id = true ∧
    (∃ book, get_book_by_id s book_id = some book) ∧
    (∃ r, (get_patron_borrowed_books s patron_id).find? (fun x => x.book_id == book_id)
      = some r) := by
  unfold return_book_by_patron at hsucc
  by_cases hv : validPatronId patron_id = true
  · rw [if_neg (by simp [hv])] at hsucc
    cases hb : get_book_by_id s book_id with
    | none => rw [hb] at hsucc; simp at hsucc
    | some book =>
      rw [hb] at hsucc
      dsimp only at hsucc
      cases hf : (get_patron_borrowed_books s patron_id).find? (fun x => x.book_id == book_id) with
      | none => rw [hf] at hsucc; simp at hsucc
      | some r => exact ⟨hv, ⟨book, rfl⟩, ⟨r, rfl⟩⟩
  · rw [if_pos (by simp [hv])] at hsucc
    simp at hsucc

/-- Returning with no open record for the pair fails with the
"not borrowed by the patron" message and mutates nothing. -/
theorem return_fails_of_no_open (s : LibraryState) (nowi : Int) (patron_id : String)
    (book_id : Nat) (book : Book)
    (hv : validPatronId patron_id = true)
    (hb : get_book_by_id s book_id = some book)
    (hfind : (get_patron_borrowed_books s patron_id).find? (fun x => x.book_id == book_id)
      = none) :
    return_book_by_patron s nowi patron_id book_id
      = ((false, "This book is not borrowed by the patron."), s) := by
  unfold return_book_by_patron
  rw [if_neg (by simp [hv]), hb]
  dsimp only
  rw [hfind]

/-- C2: a successful borrow decrements the book's `available_copies` by
exactly 1, a successful return increments it by exactly 1, a successful
borrow followed by a return of the same book succeeds and restores
`available_copies` to its prior value, and a second return of the same
pair then fails with the "not borrowed by the patron" message and mutates
nothing. -/
theorem claim_c2 :
    (∀ (s : LibraryState) (nowi : Int) (patron_id : String) (book_id : Nat) (book : Book),
      get_book_by_id s book_id = some book →
      (borrow_book_by_patron s nowi patron_id book_id).1.1 = true →
      get_book_by_id (borrow_book_by_patron s nowi patron_id book_id).2 book_id
        = some { book with available_copies := book.available_copies - 1 }) ∧
    (∀ (s : LibraryState) (nowi : Int) (patron_id : String) (book_id : Nat) (book : Book),
      get_book_by_id s book_id = some book →
      (return_book_by_patron s nowi patron_id book_id).1.1 = true →
      get_book_by_id (return_book_by_patron s nowi patron_id book_id).2 book_id
        = some { book with available_copies := book.available_copies + 1 }) ∧
    (∀ (s : LibraryState) (now1 now2 now3 : Int) (patron_id : String) (book_id : Nat)
        (book : Book),
      get_book_by_id s book_id = some book →
      (borrow_book_by_patron s now1 patron_id book_id).1.1 = true →
      (return_book_by_patron (borrow_book_by_patron s now1 patron_id book_id).2
          now2 patron_id book_id).1.1 = true ∧
      get_book_by_id (return_book_by_patron
          (borrow_book_by_patron s now1 patron_id book_id).2 now2 patron_id book_id).2 book_id
        = some book ∧
      return_book_by_patron (return_book_by_patron
          (borrow_book_by_patron s now1 patron_id book_id).2 now2 patron_id book_id).2
          now3 patron_id book_id
        = ((false, "This book is not borrowed by the patron."),
           (return_book_by_patron (borrow_book_by_patron s now1 patron_id book_id).2
              now2 patron_id book_id).2)) := by
  have hdec : ∀ (s : LibraryState) (nowi : Int) (patron_id : String) (book_id : Nat)
      (book : Book), get_book_by_id s book_id = some book →
      (borrow_book_by_patron s nowi patron_id book_id).1.1 = true →
      get_book_by_id (borrow_book_by_patron s nowi patron_id book_id).2 book_id
        = some { book with available_copies := book.available_copies - 1 } := by
    intro s nowi patron_id book_id book hb hsucc
    obtain ⟨hv, book', hb', hav, h5⟩ := borrow_success_inv s nowi patron_id book_id hsucc
    rw [hb] at hb'
    injection hb' with he
    subst he
    rw [borrow_characterize s nowi patron_id book_id book hv hb hav h5]
    unfold get_book_by_id
    dsimp only
    rw [find?_id_map_update]
    unfold get_book_by_id at hb
    rw [hb]
    simp only [Option.map_some']
    have he2 : book.available_copies + (-1) = book.available_copies - 1 := by ring
    rw [he2]
  have hinc : ∀ (s : LibraryState) (nowi : Int) (patron_id : String) (book_id : Nat)
      (book : Book), get_book_by_id s book_id = some book →
      (return_book_by_patron s nowi patron_id book_id).1.1 = true →
      get_book_by_id (return_book_by_patron s nowi patron_id book_id).2 book_id
        = some { book with available_copies := book.available_copies + 1 } := by
    intro s nowi patron_id book_id book hb hsucc
    obtain ⟨hv, ⟨book', hb'⟩, ⟨r, hf⟩⟩ := return_success_inv s nowi patron_id book_id hsucc
    rw [hb] at hb'
    injection hb' with he
    subst he
    rw [return_characterize s nowi patron_id book_id book r hv hb hf]
    unfold get_book_by_id
    dsimp only
    rw [find?_id_map_update]
    unfold get_book_by_id at hb
    rw [hb]
    simp only [Option.map_some']
  refine ⟨hdec, hinc, ?_⟩
  intro s now1 now2 now3 patron_id book_id book hb hsucc
  obtain ⟨hv, book', hb', hav, h5⟩ := borrow_success_inv s now1 patron_id book_id hsucc
  rw [hb] at hb'
  injection hb' with he
  subst he
  have hbor := borrow_characterize s now1 patron_id book_id book hv hb hav h5
  rw [hbor]
  dsimp only
  -- the state after the borrow
  have hbook1 : get_book_by_id
      (⟨s.books.map (fun b => if b.id == book_id
          then { b with available_copies := b.available_copies + (-1) } else b),
        s.records ++ [⟨patron_id, book_id, now1, now1 + 14 * 86400, none⟩]⟩ : LibraryState)
      book_id = some { book with available_copies := book.available_copies + (-1) } := by
    unfold get_book_by_id
    dsimp only
    rw [find?_id_map_update]
    unfold get_book_by_id at hb
    rw [hb]
    rfl
  have hgpb : get_patron_borrowed_books
      (⟨s.books.map (fun b => if b.id == book_id
          then { b with available_copies := b.available_copies + (-1) } else b),
        s.records ++ [⟨patron_id, book_id, now1, now1 + 14 * 86400, none⟩]⟩ : LibraryState)
      patron_id
      = s.records.filter (fun r => r.patron_id == patron_id && r.return_date.isNone)
          ++ [⟨patron_id, book_id, now1, now1 + 14 * 86400, none⟩] := by
    unfold get_patron_borrowed_books
    dsimp only
    rw [List.filter_append]
    congr 1
    simp [List.filter]
  have hfind1 : ∃ r1, (get_patron_borrowed_books
      (⟨s.books.map (fun b => if b.id == book_id
          then { b with available_copies := b.available_copies + (-1) } else b),
        s.records ++ [⟨patron_id, book_id, now1, now1 + 14 * 86400, none⟩]⟩ : LibraryState)
      patron_id).find? (fun x => x.book_id == book_id) = some r1 := by
    rw [hgpb, List.find?_append]
    cases hfa : (s.records.filter
        (fun r => r.patron_id == patron_id && r.return_date.isNone)).find?
        (fun x => x.book_id == book_id) with
    | none =>
      refine ⟨⟨patron_id, book_id, now1, now1 + 14 * 86400, none⟩, ?_⟩
      simp [List.find?]
    | some r0 => exact ⟨r0, by simp⟩
  obtain ⟨r1, hr1⟩ := hfind1
  have hret := return_characterize _ now2 patron_id book_id
    { book with available_copies := book.available_copies + (-1) } r1 hv hbook1 hr1
  rw [hret]
  dsimp only
  have hbook2 : get_book_by_id
      (LibraryState.mk
        ((s.books.map (fun b => if b.id == book_id
            then { b with available_copies := b.available_copies + (-1) } else b)).map
          (fun b => if b.id == book_id
            then { b with available_copies := b.available_copies + 1 } else b))
        ((s.records ++ [BorrowRecord.mk patron_id book_id now1 (now1 + 14 * 86400) none]).map
          (fun x => if x.patron_id == patron_id && x.book_id == book_id && x.return_date.isNone
            then { x with return_date := some now2 } else x))) book_id
      = some book := by
    unfold get_book_by_id
    dsimp only
    rw [find?_id_map_update, find?_id_map_update]
    unfold get_book_by_id at hb
    rw [hb]
    simp only [Option.map_some']
    have he3 : book.available_copies + (-1) + 1 = book.available_copies := by ring
    rw [he3]
  refine ⟨rfl, hbook2, ?_⟩
  have hnone : (get_patron_borrowed_books
      (LibraryState.mk
        ((s.books.map (fun b => if b.id == book_id
            then { b with available_copies := b.available_copies + (-1) } else b)).map
          (fun b => if b.id == book_id
            then { b with available_copies := b.available_copies + 1 } else b))
        ((s.records ++ [BorrowRecord.mk patron_id book_id now1 (now1 + 14 * 86400) none]).map
          (fun x => if x.patron_id == patron_id && x.book_id == book_id && x.return_date.isNone
            then { x with return_date := some now2 } else x)))
      patron_id).find? (fun x => x.book_id == book_id) = none := by
    unfold get_patron_borrowed_books
    dsimp only
    exact find?_open_after_close _ patron_id book_id now2
  exact return_fails_of_no_open _ now3 patron_id book_id book hv hbook2 hnone

/-- C2 witness: borrowing the sample book and returning it restores
availability, and a second return is refused without mutation. -/
theorem claim_c2_witness :
    (borrow_book_by_patron sCatalog 0 "123456" 1).1.1 = true ∧
    ((return_book_by_patron (borrow_book_by_patron sCatalog 0 "123456" 1).2
        5 "123456" 1).1.1 = true ∧
     get_book_by_id (return_book_by_patron
        (borrow_book_by_patron sCatalog 0 "123456" 1).2 5 "123456" 1).2 1 = some bGatsby ∧
     return_book_by_patron (return_book_by_patron
        (borrow_book_by_patron sCatalog 0 "123456" 1).2 5 "123456" 1).2 6 "123456" 1
       = ((false, "This book is not borrowed by the patron."),
          (return_book_by_patron (borrow_book_by_patron sCatalog 0 "123456" 1).2
             5 "123456" 1).2)) :=
  ⟨by decide, claim_c2.2.2 sCatalog 0 5 6 "123456" 1 bGatsby (by decide) (by decide)⟩

/-- Every fee the report's tier computation produces is an integer number
of half-dollars. -/
theorem reportFee_halfint (d : Int) : ∃ n : ℤ, reportFee d = (n : ℚ) / 2 := by
  unfold reportFee
  by_cases h0 : 0 < d
  · rw [if_pos h0]
    by_cases h7 : d ≤ 7
    · rw [if_pos h7]
      rcases le_total ((d : ℚ) * 0.50) 15.00 with h | h
      · exact ⟨d, by rw [min_eq_left h]; ring⟩
      · exact ⟨30, by rw [min_eq_right h]; norm_num⟩
    · rw [if_neg h7]
      rcases le_total (7 * 0.50 + ((d : ℚ) - 7) * 1.00) 15.00 with h | h
      · exact ⟨2 * d - 7, by rw [min_eq_left h]; push_cast; ring⟩
      · exact ⟨30, by rw [min_eq_right h]; norm_num⟩
  · rw [if_neg h0]
    exact ⟨0, by norm_num⟩

/-- Rounding to two decimals is the identity on half-dollar amounts. -/
theorem round2_half (n : ℤ) : round2 ((n : ℚ) / 2) = (n : ℚ) / 2 := by
  unfold round2
  have h : (n : ℚ) / 2 * 100 = ((n * 50 : ℤ) : ℚ) := by push_cast; ring
  rw [h, round_intCast]
  push_cast
  ring

/-- Rounding to two decimals does not change a tier fee. -/
theorem round2_reportFee (d : Int) : round2 (reportFee d) = reportFee d := by
  obtain ⟨n, hn⟩ := reportFee_halfint d
  rw [hn, round2_half]

/-- Projecting the record out of the record-book join recovers the input
list whenever every record's book resolves. -/
theorem map_fst_filterMap_join (s : LibraryState) (l : List BorrowRecord)
    (h : ∀ rec ∈ l, (get_book_by_id s rec.book_id).isSome) :
    (l.filterMap (fun rec => (get_book_by_id s rec.book_id).map (fun b => (rec, b)))).map
      (fun p => p.1) = l := by
  induction l with
  | nil => rfl
  | cons a t ih =>
    obtain ⟨b, hb⟩ := Option.isSome_iff_exists.mp (h a (List.mem_cons_self a t))
    rw [List.filterMap_cons, hb]
    simp only [Option.map_some']
    rw [List.map_cons]
    rw [ih (fun rec hr => h rec (List.mem_cons_of_mem _ hr))]

/-- C4: for a valid patron whose records all resolve to catalog books,
the status report's `borrowing_history` contains every borrow record of
the patron (open or closed), is ordered by borrow date ascending, each
entry's `fee_incurred` is the tier fee computed against the return date
if closed and now otherwise, and `total_late_fees` is the sum of those
computed fees rounded to two decimals once at the end. -/
theorem claim_c4 (s : LibraryState) (nowi : Int) (patron_id : String) (r : PatronReport)
    (hpid : validPatronId patron_id = true)
    (hres : ∀ rec ∈ s.records, rec.patron_id = patron_id →
      (get_book_by_id s rec.book_id).isSome)
    (hrep : get_patron_status_report s nowi patron_id = .report r) :
    (r.borrowing_history.map
        (fun e => (e.book_id, e.borrow_date, e.due_date, e.return_date))).Perm
      ((s.records.filter (fun rec => rec.patron_id == patron_id)).map
        (fun rec => (rec.book_id, rec.borrow_date, rec.due_date, rec.return_date))) ∧
    r.borrowing_history.Pairwise (fun a b => a.borrow_date ≤ b.borrow_date) ∧
    (∀ e ∈ r.borrowing_history,
      e.fee_incurred = reportFee (daysOverdueAt nowi e.due_date e.return_date)) ∧
    r.total_late_fees
      = round2 ((r.borrowing_history.map
          (fun e => reportFee (daysOverdueAt nowi e.due_date e.return_date))).sum) := by
  unfold get_patron_status_report at hrep
  rw [if_neg (by simp [hpid])] at hrep
  dsimp only at hrep
  injection hrep with hr
  subst hr
  dsimp only
  have hperm1 : (patronRows s patron_id).Perm (patronRowsUnsorted s patron_id) :=
    List.perm_insertionSort _ _
  have hmapfst : (patronRowsUnsorted s patron_id).map (fun p => p.1)
      = s.records.filter (fun rec => rec.patron_id == patron_id) := by
    unfold patronRowsUnsorted
    apply map_fst_filterMap_join
    intro rec hrec
    rw [List.mem_filter] at hrec
    exact hres rec hrec.1 (by simpa using hrec.2)
  refine ⟨?_, ?_, ?_, ?_⟩
  · have h1 : ((patronRows s patron_id).map (fun p => p.1)).Perm
        ((patronRowsUnsorted s patron_id).map (fun p => p.1)) :=
      List.Perm.map _ hperm1
    have h2 := List.Perm.map
      (fun rec : BorrowRecord => (rec.book_id, rec.borrow_date, rec.due_date, rec.return_date))
      h1
    rw [hmapfst] at h2
    simpa [List.map_map, Function.comp] using h2
  · have hsort : List.Sorted rowLE (patronRows s patron_id) :=
      List.sorted_insertionSort rowLE _
    exact List.Pairwise.map _ (fun p q h => h) hsort
  · intro e he
    rw [List.mem_map] at he
    obtain ⟨p, hp, rfl⟩ := he
    exact round2_reportFee _
  · rw [List.map_map]
    rfl

/-- C4 witness: the concrete report of patron 123456 at day 19 over
`sOverdue` — one record, 5 days overdue, fee 2.50, total 2.50. -/
theorem claim_c4_witness :
    (rSample.borrowing_history.map
        (fun e => (e.book_id, e.borrow_date, e.due_date, e.return_date))).Perm
      ((sOverdue.records.filter (fun rec => rec.patron_id == "123456")).map
        (fun rec => (rec.book_id, rec.borrow_date, rec.due_date, rec.return_date))) ∧
    rSample.borrowing_history.Pairwise (fun a b => a.borrow_date ≤ b.borrow_date) ∧
    (∀ e ∈ rSample.borrowing_history,
      e.fee_incurred = reportFee (daysOverdueAt (19 * 86400) e.due_date e.return_date)) ∧
    rSample.total_late_fees
      = round2 ((rSample.borrowing_history.map
          (fun e => reportFee (daysOverdueAt (19 * 86400) e.due_date e.return_date))).sum) := by
  have hfee : reportFee 5 = 2.5 := by norm_num [reportFee]
  have hr2 : round2 (2.5 : ℚ) = 2.5 := by
    unfold round2
    rw [show (2.5 : ℚ) * 100 = ((250 : ℤ) : ℚ) by norm_num, round_intCast]
    norm_num
  have hrep : get_patron_status_report sOverdue (19 * 86400) "123456" = .report rSample := by
    unfold get_patron_status_report
    rw [if_neg (by decide)]
    dsimp only
    rw [show patronRows sOverdue "123456"
      = [(⟨"123456", 1, 0, 14 * 86400, none⟩, bGatsby)] from rfl]
    dsimp only [List.map]
    rw [show daysOverdueAt (19 * 86400) (14 * 86400) none = 5 from rfl, hfee,
      List.sum_cons, List.sum_nil, add_zero, hr2]
    rfl
  exact claim_c4 sOverdue (19 * 86400) "123456" rSample (by decide) (by decide) hrep

end LibraryService
